import Mathlib

/-!
Verification development for the go-mssqldb connection/session core:
federated-auth configuration parsing, the credential workflow dispatcher,
per-session state (trace id, log masking), the pre-login wire option codec,
and the GUID byte-order codec (`UniqueIdentifier`).

The repository material at hand consists of the package's test files; the
functions under test (`parse`, `provideActiveDirectoryToken`, `newSession`,
`preparePreloginFields`, the pre-login block codec, `UniqueIdentifier`
`Scan`/`Value`) are modelled from the specification, with the test files'
concrete vectors used as fixed points.  Connection strings and messages are
modelled as `List Char`, byte buffers as `List Nat` (each entry `< 256`
where it matters).
-/

/-! ## Definitions -/

/-! ### Connection-string key/value splitting -/

/-- Split a character list on a separator, keeping empty segments. -/
def splitOnChar (sep : Char) : List Char → List (List Char)
  | [] => [[]]
  | c :: rest =>
    let r := splitOnChar sep rest
    if c = sep then [] :: r
    else
      match r with
      | h :: t => (c :: h) :: t
      | [] => [[c]]

/-- Split a segment at its first `=` into a key and a value. -/
def splitFirstEq : List Char → (List Char × List Char)
  | [] => ([], [])
  | c :: rest =>
    if c = '=' then ([], rest)
    else
      let (k, v) := splitFirstEq rest
      (c :: k, v)

/-- Modelled from the spec: the configuration source supplies a flat mapping
of connection parameters; a `key=value;key=value` connection string is split
into that mapping. -/
def kvPairs (s : List Char) : List (List Char × List Char) :=
  ((splitOnChar ';' s).filter (fun seg => ¬ seg.isEmpty)).map splitFirstEq

/-- Look a parameter up in the flat mapping; an absent key reads as empty. -/
def getParam (k : List Char) (kvs : List (List Char × List Char)) : List Char :=
  (List.lookup k kvs).getD []

/-! ### Federated auth configuration -/

/-- Modelled from the spec: the closed enum of credential-acquisition
workflows of `FederatedAuthConfig.workflow` (the azuread package's
implementation file is not part of the given material). -/
inductive FedAuthWorkflow where
  | password
  | servicePrincipalSecret
  | servicePrincipalCertificate
  | managedIdentity
  | managedIdentityWithResourceId
  | managedIdentityWithClientId
  | preSuppliedToken
  | none
  deriving DecidableEq, Repr

/-- Modelled from the spec: which on-wire feature-extension format to use
(`Reserved` means no federated auth). -/
inductive FedAuthLibrary where
  | reserved
  | legacyTokenLibrary
  | securityTokenLibrary
  deriving DecidableEq, Repr

/-- Modelled from the spec: the library implied by a selected workflow —
`Reserved` for the no-fed-auth case, the security-token format for a
pre-supplied access token, the legacy (ADAL) format otherwise. -/
def libraryOf : FedAuthWorkflow → FedAuthLibrary
  | .none => .reserved
  | .preSuppliedToken => .securityTokenLibrary
  | _ => .legacyTokenLibrary

/-- Modelled from the spec: the typed, validated descriptor produced by
`parse` (Go: `azureFedAuthConfig`). -/
structure AzureFedAuthConfig where
  fedAuthWorkflow : FedAuthWorkflow := .none
  fedAuthLibrary : FedAuthLibrary := .reserved
  clientID : List Char := []
  tenantID : List Char := []
  certificatePath : List Char := []
  clientSecret : List Char := []
  user : List Char := []
  password : List Char := []
  applicationClientID : List Char := []
  resourceID : List Char := []
  deriving DecidableEq, Repr

/-- Modelled from the spec: classified configuration-parsing errors. -/
inductive ParseError where
  | invalidConfiguration (msg : List Char)
  | unsupportedWorkflow (kw : List Char)
  deriving DecidableEq, Repr

/-- Workflow keyword for the password grant. -/
def ActiveDirectoryPassword : List Char := "ActiveDirectoryPassword".data

/-- Workflow keyword for the client-secret / client-certificate grant. -/
def ActiveDirectoryServicePrincipal : List Char := "ActiveDirectoryServicePrincipal".data

/-- Alternate workflow keyword for the client-secret / client-certificate grant. -/
def ActiveDirectoryApplication : List Char := "ActiveDirectoryApplication".data

/-- Workflow keyword for managed identity. -/
def ActiveDirectoryMSI : List Char := "ActiveDirectoryMSI".data

/-- Alternate workflow keyword for managed identity. -/
def ActiveDirectoryManagedIdentity : List Char := "ActiveDirectoryManagedIdentity".data

/-- Workflow keyword for a pre-supplied access token. -/
def ActiveDirectoryServicePrincipalAccessToken : List Char :=
  "ActiveDirectoryServicePrincipalAccessToken".data

/-- Modelled from the spec: a tenant id embedded via `@tenant` in the user id
is split out; a leading or trailing `@`, or no `@` at all, leaves the user id
whole with no tenant. Splits at the last `@`. -/
def splitTenantAndClientID (u : List Char) : List Char × List Char :=
  let rev := u.reverse
  let sfx := rev.takeWhile (fun c => c ≠ '@')
  let rest := rev.dropWhile (fun c => c ≠ '@')
  match rest with
  | [] => (u, [])
  | _ :: pre =>
    if pre.isEmpty ∨ sfx.isEmpty then (u, [])
    else (pre.reverse, sfx.reverse)

/-- Modelled from the spec: workflow-specific validation of the flat
parameter mapping (§4.3), producing the typed descriptor. Missing required
fields or a mutually-exclusive pair yield `invalidConfiguration`; an
unrecognized workflow keyword yields `unsupportedWorkflow`. -/
def validateParameters (fedauth user pwd certPath appCID resID : List Char) :
    Except ParseError AzureFedAuthConfig :=
  if fedauth.isEmpty then
    .ok { fedAuthWorkflow := .none, fedAuthLibrary := libraryOf .none }
  else if fedauth = ActiveDirectoryPassword then
    if user.isEmpty ∨ pwd.isEmpty then
      .error (.invalidConfiguration "user id and password are required for ActiveDirectoryPassword".data)
    else
      .ok { fedAuthWorkflow := .password, fedAuthLibrary := libraryOf .password,
            user := user, password := pwd, applicationClientID := appCID }
  else if fedauth = ActiveDirectoryServicePrincipal ∨ fedauth = ActiveDirectoryApplication then
    if ¬ certPath.isEmpty then
      if (splitTenantAndClientID user).1.isEmpty ∨ appCID.isEmpty then
        .error (.invalidConfiguration "client id and application client id are required for certificate authentication".data)
      else
        .ok { fedAuthWorkflow := .servicePrincipalCertificate,
              fedAuthLibrary := libraryOf .servicePrincipalCertificate,
              clientID := (splitTenantAndClientID user).1,
              tenantID := (splitTenantAndClientID user).2, certificatePath := certPath,
              clientSecret := pwd, applicationClientID := appCID }
    else
      if (splitTenantAndClientID user).1.isEmpty ∨ (splitTenantAndClientID user).2.isEmpty ∨ pwd.isEmpty then
        .error (.invalidConfiguration "user id as appid@tenantid and password are required".data)
      else
        .ok { fedAuthWorkflow := .servicePrincipalSecret,
              fedAuthLibrary := libraryOf .servicePrincipalSecret,
              clientID := (splitTenantAndClientID user).1,
              tenantID := (splitTenantAndClientID user).2, clientSecret := pwd,
              applicationClientID := appCID }
  else if fedauth = ActiveDirectoryMSI ∨ fedauth = ActiveDirectoryManagedIdentity then
    if ¬ user.isEmpty ∧ ¬ resID.isEmpty then
      .error (.invalidConfiguration "client id and resource id are mutually exclusive".data)
    else if ¬ user.isEmpty then
      .ok { fedAuthWorkflow := .managedIdentityWithClientId,
            fedAuthLibrary := libraryOf .managedIdentityWithClientId,
            clientID := user, applicationClientID := appCID }
    else if ¬ resID.isEmpty then
      .ok { fedAuthWorkflow := .managedIdentityWithResourceId,
            fedAuthLibrary := libraryOf .managedIdentityWithResourceId,
            resourceID := resID, applicationClientID := appCID }
    else
      .ok { fedAuthWorkflow := .managedIdentity,
            fedAuthLibrary := libraryOf .managedIdentity,
            applicationClientID := appCID }
  else if fedauth = ActiveDirectoryServicePrincipalAccessToken then
    if pwd.isEmpty then
      .error (.invalidConfiguration "password must contain the access token".data)
    else
      .ok { fedAuthWorkflow := .preSuppliedToken,
            fedAuthLibrary := libraryOf .preSuppliedToken, password := pwd }
  else
    .error (.unsupportedWorkflow fedauth)

/-- Modelled from the spec: `parse(connectionString) -> (FederatedAuthConfig, error)` —
split the connection string into the flat parameter mapping, then run the
workflow-specific validation. -/
def parse (dsn : List Char) : Except ParseError AzureFedAuthConfig :=
  validateParameters
    (getParam "fedauth".data (kvPairs dsn))
    (getParam "user id".data (kvPairs dsn))
    (getParam "password".data (kvPairs dsn))
    (getParam "clientcertpath".data (kvPairs dsn))
    (getParam "applicationclientid".data (kvPairs dsn))
    (getParam "resource id".data (kvPairs dsn))

/-! ### GUID byte-order codec (`UniqueIdentifier`) -/

/-- A `UniqueIdentifier` holds the 16 in-memory GUID bytes. -/
def UniqueIdentifier := List Nat

/-- Modelled from the spec: the byte-order quirk in GUID-shaped fields —
the first four bytes reversed, bytes 4–5 swapped, bytes 6–7 swapped, the
last eight bytes unchanged (fixed by the repository's `UniqueIdentifier`
test vectors); anything that is not 16 bytes is left alone. -/
def swapUuidBytes : List Nat → List Nat
  | [b0, b1, b2, b3, b4, b5, b6, b7, b8, b9, b10, b11, b12, b13, b14, b15] =>
    [b3, b2, b1, b0, b5, b4, b7, b6, b8, b9, b10, b11, b12, b13, b14, b15]
  | l => l

/-- Modelled from the spec: `UniqueIdentifier.Value()` — the database wire
form of the GUID, obtained by the fixed byte permutation. -/
def UniqueIdentifier.Value (u : UniqueIdentifier) : List Nat :=
  swapUuidBytes u

/-- Modelled from the spec: the byte-slice branch of `UniqueIdentifier.Scan` —
a 16-byte slice is un-permuted back into the in-memory form; any other
length is rejected. -/
def UniqueIdentifier.Scan (b : List Nat) : Except (List Char) UniqueIdentifier :=
  if b.length = 16 then .ok (swapUuidBytes b)
  else .error "invalid UniqueIdentifier length".data

/-! ### Credential workflow dispatcher -/

/-- Modelled from the spec: `CredentialToken` — an opaque bearer token and an
optional absolute expiry (absent for pre-supplied tokens). -/
structure CredentialToken where
  value : List Char
  expiresAt : Option Nat
  deriving DecidableEq, Repr

/-- Modelled from the spec: the OS-level error conditions observable through
error-chain inspection (Go `errors.Is` against `fs.ErrNotExist` and friends). -/
inductive OsError where
  | notExist
  | permissionDenied
  deriving DecidableEq, Repr

/-- Modelled from the spec: the classified errors of the credential workflow
dispatcher (§4.4, §7). -/
inductive TokenError where
  | fileNotFound (inner : OsError)
  | certificateParseError (msg : List Char)
  | credentialError (msg : List Char)
  | configurationError (msg : List Char)
  deriving DecidableEq, Repr

/-- Error-chain inspection: does the classified error wrap the given OS-level
condition? (`errors.Is` reaching the wrapped OS error.) -/
def TokenError.matchesOs : TokenError → OsError → Bool
  | .fileNotFound inner, target => inner = target
  | _, _ => false

/-- Whether the classified error is the file-not-found class. -/
def TokenError.isFileNotFound : TokenError → Bool
  | .fileNotFound _ => true
  | _ => false

/-- The message carried by a classified error. -/
def TokenError.message : TokenError → List Char
  | .fileNotFound _ => "file not found".data
  | .certificateParseError m => m
  | .credentialError m => m
  | .configurationError m => m

/-- Modelled from the spec: the local file system the certificate branch
reads from — a partial map from path to content; a missing path reads as the
OS-level not-found condition. -/
def FileSystem := List Char → Option (List Nat)

/-- Modelled from the spec: the PKCS#12 parser collaborator — either the
decoded key and certificate chain, or the underlying parse failure message. -/
def P12Parser := List Nat → Except (List Char) (List Nat × List Nat)

/-- Modelled from the spec: the external identity-provider collaborator the
non-local workflow branches call with the validated parameters. -/
def IdentityProvider := AzureFedAuthConfig → Except TokenError CredentialToken

/-- Modelled from the spec: `provideToken` / `provideActiveDirectoryToken`
(§4.4) — dispatch on the configured workflow.  The certificate branch reads
the certificate file (`FileNotFound` wrapping the OS not-found condition on a
missing path) and parses it as PKCS#12 (`CertificateParseError` wrapping the
underlying parse failure message on malformed content); the pre-supplied
token branch returns the configured value verbatim with no expiry; the other
workflow branches call the identity-provider collaborator. -/
def provideActiveDirectoryToken (fs : FileSystem) (p12 : P12Parser)
    (idp : IdentityProvider) (cfg : AzureFedAuthConfig) :
    Except TokenError CredentialToken :=
  match cfg.fedAuthWorkflow with
  | .servicePrincipalCertificate =>
    match fs cfg.certificatePath with
    | Option.none => .error (.fileNotFound .notExist)
    | Option.some content =>
      match p12 content with
      | .error msg =>
        .error (.certificateParseError ("failed to parse certificate: ".data ++ msg))
      | .ok _ => idp cfg
  | .preSuppliedToken => .ok { value := cfg.password, expiresAt := Option.none }
  | .none => .error (.configurationError "no federated auth workflow configured".data)
  | _ => idp cfg

/-! ### Session state, trace id, and contextual logging -/

/-- Pre-login option tag: protocol version. -/
def preloginVERSION : Nat := 0

/-- Pre-login option tag: encryption mode. -/
def preloginENCRYPTION : Nat := 1

/-- Pre-login option tag: instance name. -/
def preloginINSTOPT : Nat := 2

/-- Pre-login option tag: thread id. -/
def preloginTHREADID : Nat := 3

/-- Pre-login option tag: MARS capability. -/
def preloginMARS : Nat := 4

/-- Pre-login option tag: 32-byte trace id. -/
def preloginTRACEID : Nat := 5

/-- Pre-login option tag: federated-auth-required flag. -/
def preloginFEDAUTHREQUIRED : Nat := 6

/-- Modelled from the spec: per-connection session state — 16-byte connection
id, 16-byte activity id, and the bitmask of enabled log categories. -/
structure Session where
  connid : List Nat
  activityid : List Nat
  logMask : Nat
  deriving Repr

/-- The slice of the connection configuration that the pre-login field set
draws from: requested encryption mode byte and optional instance name. -/
structure PreloginConfig where
  encryption : Nat
  instanceName : List Char
  deriving Repr

/-- Modelled from the spec: `preparePreloginFields` (§4.2) — the tag set of
§3 as a tag-to-bytes mapping: version, encryption mode, instance name,
thread id, MARS capability, the 32-byte trace id (connection id concatenated
with activity id) and, when a federated-auth extension is requested, the
single-byte `fedAuthRequired = 1` flag. -/
def preparePreloginFields (sess : Session) (cfg : PreloginConfig)
    (fedAuthLib : FedAuthLibrary) : List (Nat × List Nat) :=
  [(preloginVERSION, [0, 0, 0, 0, 0, 0]),
   (preloginENCRYPTION, [cfg.encryption]),
   (preloginINSTOPT, cfg.instanceName.map Char.toNat ++ [0]),
   (preloginTHREADID, [0, 0, 0, 0]),
   (preloginMARS, [0]),
   (preloginTRACEID, sess.connid ++ sess.activityid)] ++
  (if fedAuthLib ≠ .reserved then [(preloginFEDAUTHREQUIRED, [1])] else [])

/-- Uppercase hexadecimal digit for a value below 16. -/
def hexDigit (n : Nat) : Char :=
  if n < 10 then Char.ofNat (48 + n) else Char.ofNat (55 + n)

/-- Two uppercase hexadecimal digits of a byte. -/
def byteHex (b : Nat) : List Char :=
  [hexDigit (b / 16), hexDigit (b % 16)]

/-- Hexadecimal rendering of a byte sequence. -/
def bytesHex (l : List Nat) : List Char :=
  (l.map byteHex).flatten

/-- The canonical `XXXXXXXX-XXXX-XXXX-XXXX-XXXXXXXXXXXX` string form of a
16-byte identifier (anything else renders empty). -/
def uuidString (u : List Nat) : List Char :=
  match u with
  | [b0, b1, b2, b3, b4, b5, b6, b7, b8, b9, b10, b11, b12, b13, b14, b15] =>
    bytesHex [b0, b1, b2, b3] ++ '-' ::
    (bytesHex [b4, b5] ++ '-' ::
     (bytesHex [b6, b7] ++ '-' ::
      (bytesHex [b8, b9] ++ '-' :: bytesHex [b10, b11, b12, b13, b14, b15])))
  | _ => []

/-- Modelled from the spec: the line an enabled log call hands to the logger
sink — the message prefixed with the activity id and connection id string
forms (the test checks for `aid:<activityid> cid:<connid>`). -/
def logLine (sess : Session) (msg : List Char) : List Char :=
  "aid:".data ++ uuidString sess.activityid ++
    (" cid:".data ++ uuidString sess.connid ++ (" ".data ++ msg))

/-- Modelled from the spec: `log(category, message)` (§4.2) — a no-op unless
`category & logMask != 0`; an enabled call emits exactly one line carrying
both identifier string forms. Returns the emitted lines. -/
def logS (sess : Session) (category : Nat) (msg : List Char) : List (List Char) :=
  if category &&& sess.logMask = 0 then [] else [logLine sess msg]

/-- A concrete sample session (the repository test's activity id) used to
evaluate the session-level theorems. -/
def sampleSession : Session where
  connid := [0, 1, 2, 3, 4, 5, 6, 7, 8, 9, 10, 11, 12, 13, 14, 15]
  activityid := [90, 196, 57, 247, 213, 222, 72, 76, 142, 10, 203, 226, 126, 126, 157, 114]
  logMask := 6

/-! ### Pre-login wire option codec -/

/-- Modelled from the spec: the header region of the pre-login block — one
fixed-size header per option (tag: 1 byte, offset: 2 bytes big-endian,
length: 2 bytes big-endian) followed by the terminator header (tag 0xFF).
`off` is the absolute offset at which the next payload will sit. -/
def encodeHeaders : List (Nat × List Nat) → Nat → List Nat
  | [], _ => [255]
  | (t, p) :: rest, off =>
    t :: off / 256 :: off % 256 :: p.length / 256 :: p.length % 256 ::
      encodeHeaders rest (off + p.length)

/-- Modelled from the spec: `encode(options)` — the headers (terminator
included) followed by the payload bytes concatenated in header order; the
first payload sits right after the `5·n + 1` header bytes. -/
def encode (opts : List (Nat × List Nat)) : List Nat :=
  encodeHeaders opts (5 * opts.length + 1) ++ (opts.map Prod.snd).flatten

/-- The `(tag, offset, length)` triples the header region of `encode`
describes, with `off` the absolute offset of the first payload. -/
def headerSpec : List (Nat × List Nat) → Nat → List (Nat × Nat × Nat)
  | [], _ => []
  | (t, p) :: rest, off => (t, off, p.length) :: headerSpec rest (off + p.length)

/-- Modelled from the spec: read fixed-size headers until the 0xFF
terminator; fail on a missing terminator or a buffer shorter than a header. -/
def decodeHeaders : List Nat → Option (List (Nat × Nat × Nat))
  | [] => Option.none
  | t :: rest =>
    if t = 255 then some []
    else
      match rest with
      | o1 :: o2 :: l1 :: l2 :: rest2 =>
        (decodeHeaders rest2).map (fun hs => (t, o1 * 256 + o2, l1 * 256 + l2) :: hs)
      | _ => Option.none

/-- Slice every header's payload range out of the buffer; fail if a range
exceeds the buffer. -/
def sliceAll (buf : List Nat) : List (Nat × Nat × Nat) → Option (List (Nat × List Nat))
  | [] => some []
  | (t, o, l) :: rest =>
    if o + l ≤ buf.length then
      (sliceAll buf rest).map (fun xs => (t, (buf.drop o).take l) :: xs)
    else Option.none

/-- Modelled from the spec: decode failures — `MalformedProtocolData` for a
missing terminator, short buffer or out-of-range payload slice, and a
distinct error for a tag declared twice. -/
inductive DecodeError where
  | malformedProtocolData
  | duplicateTag
  deriving DecidableEq, Repr

/-- Modelled from the spec: `decode(bytes) -> mapping from tag to bytes` —
read headers until the terminator, reject duplicate tags (last-declared-wins
is not supported), then slice the payload region per header. -/
def decode (buf : List Nat) : Except DecodeError (List (Nat × List Nat)) :=
  match decodeHeaders buf with
  | Option.none => .error .malformedProtocolData
  | Option.some hs =>
    if (hs.map (fun x => x.1)).Nodup then
      match sliceAll buf hs with
      | Option.none => .error .malformedProtocolData
      | Option.some opts => .ok opts
    else .error .duplicateTag

/-- Modelled from the spec: a well-formed option set — option tags are
distinct and below the terminator tag, and the whole block (header region
plus payloads) fits the 16-bit offset space, so the encoded payload ranges
cannot overlap. -/
def WellFormedOptions (opts : List (Nat × List Nat)) : Prop :=
  (∀ o ∈ opts, o.1 < 255) ∧ (opts.map Prod.fst).Nodup ∧
    5 * opts.length + 1 + ((opts.map Prod.snd).map List.length).sum ≤ 65535

instance (opts : List (Nat × List Nat)) : Decidable (WellFormedOptions opts) := by
  unfold WellFormedOptions
  infer_instance

/-! ## Theorems -/

/-- The permutation matches the repository's `UniqueIdentifier` test vector:
in-memory `01234567-89AB-CDEF-...` turned into the database wire form. -/
theorem uniqueIdentifier_value_test_vector :
    UniqueIdentifier.Value
        [0x01, 0x23, 0x45, 0x67, 0x89, 0xAB, 0xCD, 0xEF,
         0x01, 0x23, 0x45, 0x67, 0x89, 0xAB, 0xCD, 0xEF] =
      [0x67, 0x45, 0x23, 0x01, 0xAB, 0x89, 0xEF, 0xCD,
       0x01, 0x23, 0x45, 0x67, 0x89, 0xAB, 0xCD, 0xEF] := by
  rfl

/-- Validation only ever builds a configuration whose library is the one its
workflow implies. -/
theorem validateParameters_library_eq_libraryOf
    (fedauth user pwd certPath appCID resID : List Char) (cfg : AzureFedAuthConfig)
    (h : validateParameters fedauth user pwd certPath appCID resID = .ok cfg) :
    cfg.fedAuthLibrary = libraryOf cfg.fedAuthWorkflow := by
  unfold validateParameters at h
  repeat' split at h
  all_goals first
    | exact Except.noConfusion h
    | (injection h with h; subst h; rfl)

/-- Every accepted configuration carries the library its workflow implies. -/
theorem parse_library_eq_libraryOf (dsn : List Char) (cfg : AzureFedAuthConfig)
    (h : parse dsn = .ok cfg) : cfg.fedAuthLibrary = libraryOf cfg.fedAuthWorkflow :=
  validateParameters_library_eq_libraryOf _ _ _ _ _ _ cfg h

/-- C1: for every configuration accepted by `parse`, the federated-auth
library is `Reserved` if and only if the selected workflow is `None`. -/
theorem parse_library_reserved_iff_workflow_none (dsn : List Char)
    (cfg : AzureFedAuthConfig) (h : parse dsn = .ok cfg) :
    cfg.fedAuthLibrary = .reserved ↔ cfg.fedAuthWorkflow = .none := by
  rw [parse_library_eq_libraryOf dsn cfg h]
  cases cfg.fedAuthWorkflow <;> simp [libraryOf]

/-- Witness for C1: the invariant evaluated on a concrete accepted input. -/
theorem parse_library_reserved_iff_workflow_none_witness :
    (parse "server=someserver".data = .ok { fedAuthWorkflow := .none, fedAuthLibrary := .reserved }) ∧
    (({ fedAuthWorkflow := .none, fedAuthLibrary := .reserved } : AzureFedAuthConfig).fedAuthLibrary = .reserved ↔
      ({ fedAuthWorkflow := .none, fedAuthLibrary := .reserved } : AzureFedAuthConfig).fedAuthWorkflow = .none) :=
  ⟨by rfl, parse_library_reserved_iff_workflow_none "server=someserver".data _ (by rfl)⟩

/-- C2: parsing the service-principal-secret connection string splits the
`appid@tenantid` user id into client id and tenant id and records the
password as the client secret. -/
theorem parse_service_principal_secret :
    parse "fedauth=ActiveDirectoryServicePrincipal;user id=appid@tenantid;password=secret".data =
      .ok { fedAuthWorkflow := .servicePrincipalSecret,
            fedAuthLibrary := .legacyTokenLibrary,
            clientID := "appid".data, tenantID := "tenantid".data,
            clientSecret := "secret".data } := by
  rfl

/-- C3: parsing the password-workflow connection string keeps the user id
whole — the `@example.com` mail domain is not split out as a tenant id, which
stays unset. -/
theorem parse_password_workflow_keeps_user_whole :
    parse "fedauth=ActiveDirectoryPassword;user id=alice@example.com;password=secret".data =
      .ok { fedAuthWorkflow := .password,
            fedAuthLibrary := .legacyTokenLibrary,
            user := "alice@example.com".data, password := "secret".data,
            tenantID := [] } := by
  rfl

/-- C10: `Value()` is exactly the fixed byte permutation — first four bytes
reversed, bytes 4–5 swapped, bytes 6–7 swapped, last eight unchanged — the
result is 16 bytes, and `Scan` applied to it restores the identifier, so
`Scan` after `Value` is the identity. -/
theorem uniqueIdentifier_scan_value_roundtrip
    (b0 b1 b2 b3 b4 b5 b6 b7 b8 b9 b10 b11 b12 b13 b14 b15 : Nat) :
    UniqueIdentifier.Value [b0, b1, b2, b3, b4, b5, b6, b7, b8, b9, b10, b11, b12, b13, b14, b15] =
      [b3, b2, b1, b0, b5, b4, b7, b6, b8, b9, b10, b11, b12, b13, b14, b15] ∧
    (UniqueIdentifier.Value [b0, b1, b2, b3, b4, b5, b6, b7, b8, b9, b10, b11, b12, b13, b14, b15]).length = 16 ∧
    UniqueIdentifier.Scan
        (UniqueIdentifier.Value [b0, b1, b2, b3, b4, b5, b6, b7, b8, b9, b10, b11, b12, b13, b14, b15]) =
      .ok [b0, b1, b2, b3, b4, b5, b6, b7, b8, b9, b10, b11, b12, b13, b14, b15] :=
  ⟨rfl, rfl, rfl⟩

/-- C4: for every certificate-based configuration whose certificate path
names a missing file, the dispatcher fails with the `FileNotFound` error
class wrapping the OS not-found condition, which error-chain inspection
recognises. -/
theorem provideToken_missing_cert_file_not_found
    (fs : FileSystem) (p12 : P12Parser) (idp : IdentityProvider)
    (cfg : AzureFedAuthConfig)
    (hw : cfg.fedAuthWorkflow = .servicePrincipalCertificate)
    (hf : fs cfg.certificatePath = Option.none) :
    provideActiveDirectoryToken fs p12 idp cfg = .error (.fileNotFound .notExist) ∧
    TokenError.matchesOs (.fileNotFound .notExist) .notExist = true ∧
    TokenError.isFileNotFound (.fileNotFound .notExist) = true := by
  refine ⟨?_, rfl, rfl⟩
  unfold provideActiveDirectoryToken
  rw [hw, hf]

/-- Witness for C4: a concrete certificate configuration over an empty file
system fails with the recognised file-not-found class. -/
theorem provideToken_missing_cert_file_not_found_witness :
    provideActiveDirectoryToken (fun _ => Option.none) (fun _ => .error [])
        (fun _ => .error (.credentialError []))
        { fedAuthWorkflow := .servicePrincipalCertificate,
          fedAuthLibrary := .legacyTokenLibrary,
          certificatePath := "/user/cert/cert.pfx".data } =
      .error (.fileNotFound .notExist) ∧
    TokenError.matchesOs (.fileNotFound .notExist) .notExist = true ∧
    TokenError.isFileNotFound (.fileNotFound .notExist) = true :=
  provideToken_missing_cert_file_not_found _ _ _ _ rfl rfl

/-- C5: for every certificate-based configuration whose certificate file
exists but does not parse as PKCS#12, the dispatcher fails with a
`CertificateParseError` — a class distinct from `FileNotFound` — whose
message contains the underlying parse failure message. -/
theorem provideToken_malformed_cert_parse_error
    (fs : FileSystem) (p12 : P12Parser) (idp : IdentityProvider)
    (cfg : AzureFedAuthConfig) (content : List Nat) (msg : List Char)
    (hw : cfg.fedAuthWorkflow = .servicePrincipalCertificate)
    (hf : fs cfg.certificatePath = Option.some content)
    (hp : p12 content = .error msg) :
    provideActiveDirectoryToken fs p12 idp cfg =
      .error (.certificateParseError ("failed to parse certificate: ".data ++ msg)) ∧
    TokenError.isFileNotFound (.certificateParseError ("failed to parse certificate: ".data ++ msg)) = false ∧
    ∃ pre post,
      TokenError.message (.certificateParseError ("failed to parse certificate: ".data ++ msg)) =
        pre ++ msg ++ post := by
  refine ⟨?_, rfl, "failed to parse certificate: ".data, [], by simp [TokenError.message]⟩
  simp [provideActiveDirectoryToken, hw, hf, hp]

/-- Witness for C5: a concrete certificate configuration over a file system
holding malformed bytes fails with the certificate-parse class, not the
file-not-found class. -/
theorem provideToken_malformed_cert_parse_error_witness :
    provideActiveDirectoryToken (fun _ => Option.some [109, 97, 108]) (fun _ => .error "p12 malformed".data)
        (fun _ => .error (.credentialError []))
        { fedAuthWorkflow := .servicePrincipalCertificate,
          fedAuthLibrary := .legacyTokenLibrary,
          certificatePath := "/tmp/malformed_cert.pem".data } =
      .error (.certificateParseError ("failed to parse certificate: ".data ++ "p12 malformed".data)) ∧
    TokenError.isFileNotFound
        (.certificateParseError ("failed to parse certificate: ".data ++ "p12 malformed".data)) = false ∧
    ∃ pre post,
      TokenError.message
          (.certificateParseError ("failed to parse certificate: ".data ++ "p12 malformed".data)) =
        pre ++ "p12 malformed".data ++ post :=
  provideToken_malformed_cert_parse_error _ _ _ _ [109, 97, 108] "p12 malformed".data rfl rfl rfl

/-- The identifier string form matches the repository's
`UniqueIdentifier.String` test vector. -/
theorem uuidString_test_vector :
    uuidString [0x01, 0x23, 0x45, 0x67, 0x89, 0xAB, 0xCD, 0xEF,
                0x01, 0x23, 0x45, 0x67, 0x89, 0xAB, 0xCD, 0xEF] =
      "01234567-89AB-CDEF-0123-456789ABCDEF".data := by
  rfl

/-- C6: with a federated-auth extension requested, the prepared pre-login
field set maps the trace-id tag to the 32-byte concatenation of the
session's 16-byte connection id and 16-byte activity id, and maps the
fed-auth-required tag to the single byte 1. -/
theorem preparePreloginFields_traceid_fedauth (sess : Session) (cfg : PreloginConfig)
    (lib : FedAuthLibrary)
    (hc : sess.connid.length = 16) (ha : sess.activityid.length = 16)
    (hl : lib ≠ FedAuthLibrary.reserved) :
    List.lookup preloginTRACEID (preparePreloginFields sess cfg lib) =
      some (sess.connid ++ sess.activityid) ∧
    (sess.connid ++ sess.activityid).length = 32 ∧
    List.lookup preloginFEDAUTHREQUIRED (preparePreloginFields sess cfg lib) = some [1] := by
  refine ⟨?_, by simp [hc, ha], ?_⟩ <;>
    simp [preparePreloginFields, List.lookup, preloginVERSION, preloginENCRYPTION,
      preloginINSTOPT, preloginTHREADID, preloginMARS, preloginTRACEID,
      preloginFEDAUTHREQUIRED, hl]

/-- Witness for C6: the field set of a concrete session (the test's activity
id, encryption strict, instance name `i`, legacy fed-auth library). -/
theorem preparePreloginFields_traceid_fedauth_witness :
    List.lookup preloginTRACEID
        (preparePreloginFields sampleSession
          { encryption := 4, instanceName := "i".data } .legacyTokenLibrary) =
      some (sampleSession.connid ++ sampleSession.activityid) ∧
    (sampleSession.connid ++ sampleSession.activityid).length = 32 ∧
    List.lookup preloginFEDAUTHREQUIRED
        (preparePreloginFields sampleSession
          { encryption := 4, instanceName := "i".data } .legacyTokenLibrary) = some [1] :=
  preparePreloginFields_traceid_fedauth sampleSession
    { encryption := 4, instanceName := "i".data } .legacyTokenLibrary
    (by decide) (by decide) (by decide)

/-- C7: a log call is a no-op exactly when its category has no bit in common
with the session's log mask; an enabled call emits exactly one line, and
that line contains both the activity id and the connection id string forms. -/
theorem logS_noop_iff_masked (sess : Session) (category : Nat) (msg : List Char) :
    (logS sess category msg = [] ↔ category &&& sess.logMask = 0) ∧
    (category &&& sess.logMask ≠ 0 →
      logS sess category msg = [logLine sess msg] ∧
      (∃ pre post, logLine sess msg = pre ++ uuidString sess.activityid ++ post) ∧
      (∃ pre post, logLine sess msg = pre ++ uuidString sess.connid ++ post)) := by
  constructor
  · by_cases h : category &&& sess.logMask = 0 <;> simp [logS, h, logLine]
  · intro h
    refine ⟨by simp [logS, h], ⟨"aid:".data, _, rfl⟩,
      ⟨"aid:".data ++ uuidString sess.activityid ++ " cid:".data, " ".data ++ msg, ?_⟩⟩
    simp [logLine, List.append_assoc]

/-- Witness for C7: a concrete session whose mask enables the errors
category but not the debug category. -/
theorem logS_noop_iff_masked_witness :
    (logS sampleSession 2 "Errors".data = [] ↔ 2 &&& sampleSession.logMask = 0) ∧
    (logS sampleSession 2 "Errors".data = [logLine sampleSession "Errors".data] ∧
      (∃ pre post,
        logLine sampleSession "Errors".data =
          pre ++ uuidString sampleSession.activityid ++ post) ∧
      (∃ pre post,
        logLine sampleSession "Errors".data =
          pre ++ uuidString sampleSession.connid ++ post)) :=
  ⟨(logS_noop_iff_masked sampleSession 2 "Errors".data).1,
   (logS_noop_iff_masked sampleSession 2 "Errors".data).2 (by decide)⟩

/-- The header region is `5·n + 1` bytes long, whatever the payload offsets. -/
theorem encodeHeaders_length (opts : List (Nat × List Nat)) (off : Nat) :
    (encodeHeaders opts off).length = 5 * opts.length + 1 := by
  induction opts generalizing off with
  | nil => rfl
  | cons o rest ih =>
    obtain ⟨t, p⟩ := o
    simp [encodeHeaders, ih]
    ring

/-- The tags of the header triples are the option tags, in order. -/
theorem headerSpec_map_fst (opts : List (Nat × List Nat)) (off : Nat) :
    (headerSpec opts off).map (fun x => x.1) = opts.map Prod.fst := by
  induction opts generalizing off with
  | nil => rfl
  | cons o rest ih =>
    obtain ⟨t, p⟩ := o
    simp [headerSpec, ih]

/-- A buffer opening with the terminator tag decodes to the empty header
list, whatever follows. -/
theorem decodeHeaders_terminator (extra : List Nat) :
    decodeHeaders (255 :: extra) = some [] := by
  rcases extra with _ | ⟨a, _ | ⟨b, _ | ⟨c, _ | ⟨d, e⟩⟩⟩⟩ <;> simp [decodeHeaders]

/-- Reading headers off an encoded header region (with anything appended
after the terminator) recovers exactly the header triples, as long as every
option tag stays below the terminator tag. -/
theorem decodeHeaders_encodeHeaders (opts : List (Nat × List Nat)) (off : Nat)
    (extra : List Nat) (ht : ∀ o ∈ opts, o.1 < 255) :
    decodeHeaders (encodeHeaders opts off ++ extra) = some (headerSpec opts off) := by
  induction opts generalizing off with
  | nil => simp [encodeHeaders, headerSpec, decodeHeaders_terminator]
  | cons o rest ih =>
    obtain ⟨t, p⟩ := o
    have h255 : ¬ t = 255 := Nat.ne_of_lt (ht (t, p) (by simp))
    have hoff : off / 256 * 256 + off % 256 = off := by omega
    have hlen : p.length / 256 * 256 + p.length % 256 = p.length := by omega
    simp [encodeHeaders, decodeHeaders, headerSpec, h255, hoff, hlen,
      ih _ (fun o ho => ht o (by simp [ho]))]

/-- Slicing the encoded buffer per the header triples recovers the payloads:
generalised over an arbitrary prefix standing for the header region. -/
theorem sliceAll_headerSpec (opts : List (Nat × List Nat)) (pre : List Nat) :
    sliceAll (pre ++ (opts.map Prod.snd).flatten) (headerSpec opts pre.length) =
      some opts := by
  induction opts generalizing pre with
  | nil => rfl
  | cons o rest ih =>
    obtain ⟨t, p⟩ := o
    have key := ih (pre ++ p)
    simp only [List.length_append, List.append_assoc] at key
    have hcond : pre.length + p.length ≤
        (pre ++ (p ++ (rest.map Prod.snd).flatten)).length := by
      simp [List.length_append]
    have hslice :
        (((pre ++ (p ++ (rest.map Prod.snd).flatten)).drop pre.length).take p.length) = p := by
      rw [List.drop_left, List.take_left]
    simp only [List.map_cons, List.flatten_cons, headerSpec, sliceAll]
    rw [if_pos hcond, key]
    simp [hslice]

/-- C8: decoding an encoded well-formed option set gives the option set
back — the pre-login wire option codec round-trips. -/
theorem decode_encode_roundtrip (opts : List (Nat × List Nat))
    (h : WellFormedOptions opts) : decode (encode opts) = .ok opts := by
  obtain ⟨ht, hnodup, -⟩ := h
  have h1 : decodeHeaders (encode opts) = some (headerSpec opts (5 * opts.length + 1)) := by
    unfold encode
    exact decodeHeaders_encodeHeaders opts _ _ ht
  have h3 : sliceAll (encode opts) (headerSpec opts (5 * opts.length + 1)) = some opts := by
    have h4 := sliceAll_headerSpec opts (encodeHeaders opts (5 * opts.length + 1))
    rw [encodeHeaders_length] at h4
    exact h4
  simp [decode, h1, h3, headerSpec_map_fst, hnodup]

/-- Witness for C8: the round-trip evaluated on a concrete two-option set. -/
theorem decode_encode_roundtrip_witness :
    decode (encode [(1, [10]), (2, [20, 30])]) = .ok [(1, [10]), (2, [20, 30])] :=
  decode_encode_roundtrip [(1, [10]), (2, [20, 30])] (by decide)

/-- Truncating the header region of an encoded block anywhere before the
terminator leaves nothing `decodeHeaders` accepts. -/
theorem decodeHeaders_take_none (opts : List (Nat × List Nat)) (k off : Nat)
    (ht : ∀ o ∈ opts, o.1 < 255) (hk : k ≤ 5 * opts.length) :
    decodeHeaders ((encodeHeaders opts off).take k) = Option.none := by
  induction opts generalizing k off with
  | nil =>
    simp only [List.length_nil, Nat.mul_zero, Nat.le_zero] at hk
    subst hk
    rfl
  | cons o rest ih =>
    obtain ⟨t, p⟩ := o
    have h255 : ¬ t = 255 := Nat.ne_of_lt (ht (t, p) (by simp))
    have htr : ∀ o ∈ rest, o.1 < 255 := fun o ho => ht o (by simp [ho])
    obtain _ | _ | _ | _ | _ | k := k
    · rfl
    · simp [encodeHeaders, decodeHeaders, h255]
    · simp [encodeHeaders, decodeHeaders, h255]
    · simp [encodeHeaders, decodeHeaders, h255]
    · simp [encodeHeaders, decodeHeaders, h255]
    · have hk5 : k ≤ 5 * rest.length := by simp at hk; omega
      simp [encodeHeaders, decodeHeaders, h255, ih k (off + p.length) htr hk5]

/-- C9: a pre-login buffer truncated before the terminator header fails
decode with `MalformedProtocolData`, and any buffer whose header list
declares a tag twice fails decode (with the duplicate-tag error —
last-declared-wins is not applied). -/
theorem decode_rejects_truncation_and_duplicates :
    (∀ opts k, WellFormedOptions opts → k ≤ 5 * opts.length →
      decode ((encode opts).take k) = .error .malformedProtocolData) ∧
    (∀ buf hs, decodeHeaders buf = some hs → ¬ (hs.map (fun x => x.1)).Nodup →
      decode buf = .error .duplicateTag) := by
  constructor
  · intro opts k hwf hk
    obtain ⟨ht, -, -⟩ := hwf
    have hcut : (encode opts).take k = (encodeHeaders opts (5 * opts.length + 1)).take k := by
      unfold encode
      exact List.take_append_of_le_length (by rw [encodeHeaders_length]; omega)
    rw [hcut]
    simp [decode, decodeHeaders_take_none opts k _ ht hk]
  · intro buf hs h1 h2
    simp [decode, h1, h2]

/-- Witness for C9: a concrete one-option block truncated at five bytes
fails with `MalformedProtocolData`, and a concrete block declaring tag 7
twice fails with the duplicate-tag error. -/
theorem decode_rejects_truncation_and_duplicates_witness :
    decode ((encode [(1, [10])]).take 5) = .error .malformedProtocolData ∧
    decode [7, 0, 11, 0, 1, 7, 0, 12, 0, 1, 255] = .error .duplicateTag :=
  ⟨decode_rejects_truncation_and_duplicates.1 [(1, [10])] 5 (by decide) (by decide),
   decode_rejects_truncation_and_duplicates.2 [7, 0, 11, 0, 1, 7, 0, 12, 0, 1, 255]
     [(7, 11, 1), (7, 12, 1)] (by decide) (by decide)⟩
